import Mathlib

/-!
Verification development for the cflat middle tier: the arena-resident IR
(`src/ir/mod.rs`) and the surrounding lowering/typechecking pipeline driven by
`src/main.rs`.  Data types are shallowly embedded from the Rust source;
operations whose implementation files are not present in the sources
(`ir/lower.rs`, `ir/typecheck.rs`, `ast.rs`) are modelled from the spec, as
marked in their doc comments.
-/

namespace Cflat

/-- Modelled from the spec: `crate::ast::Span` (the `ast` module is not among
the provided sources); the spec only requires a source span attached to every
node, so a half-open byte range suffices. -/
structure Span where
  start : Nat
  stop : Nat
deriving DecidableEq, Repr

/-- Key into the nominal-type arena (`new_key_type! TypeKey`). -/
structure TypeKey where
  key : Nat
deriving DecidableEq, Repr

/-- Key into the function arena (`new_key_type! FuncKey`). -/
structure FuncKey where
  key : Nat
deriving DecidableEq, Repr

/-- Key into the string-literal arena (`new_key_type! LiteralKey`). -/
structure LiteralKey where
  key : Nat
deriving DecidableEq, Repr

/-- Key into a function's local variable arena (`new_key_type! Var`). -/
structure Var where
  key : Nat
deriving DecidableEq, Repr

/-- Embeds `PrimitiveType` from `ir/mod.rs`. -/
inductive PrimitiveType
  | I32
  | F32
  | Bool
  | U8
deriving DecidableEq, Repr

/-- The structural `Type` enum from `ir/mod.rs` (named `Ty` because `Type` is
reserved in Lean).  `len` of `Array` is an `i32` in the source; it is embedded
as `Int` together with the range predicate `in_i32_range` below. -/
inductive Ty
  | Direct (k : TypeKey)
  | Primitive (p : PrimitiveType)
  | Uninit
  | Unit
  | Never
  | Undeclared
  | Ptr (t : Ty)
  | Slice (t : Ty)
  | Array (ty : Ty) (len : Int)
  | Func (ret : Ty) (params : List Ty)

/-- Embeds `DirectType` from `ir/mod.rs` (the transparent-alias variant `Type` is
named `Alias` because `Type` is reserved in Lean). -/
inductive DirectType
  | Struct (fields : List (String × Ty))
  | Union (variants : List (String × Ty))
  | Enum (variants : List (String × Int))
  | Alias (t : Ty)

/-- Embeds `Param` from `ir/mod.rs`. -/
structure Param where
  outward_name : Option String
  name : String
  ty : Ty

/-- Embeds `FunctionDecl` from `ir/mod.rs`. -/
structure FunctionDecl where
  ret : Ty
  params : List Param

/-- Embeds `Value` from `ir/mod.rs`: an atomic operand carrying its span. -/
inductive Value
  | Var (v : Var) (span : Span)
  | Num (n : Int) (span : Span)
  | Literal (l : LiteralKey) (span : Span)
  | Uninit (span : Span)
  | Unit (span : Span)
deriving DecidableEq, Repr

/-- Embeds `UnaryOp` from `ir/mod.rs`. -/
inductive UnaryOp
  | AddressOf
  | Deref
  | Negate
  | Not
deriving DecidableEq, Repr

/-- Embeds `BinOp` from `ir/mod.rs`. -/
inductive BinOp
  | Add | Sub | Mul | Div | Mod
  | LogicAnd | LogicOr | LogicXor
  | And | Or | Xor
  | Eq | Ne | Gt | Ge | Lt | Le
deriving DecidableEq, Repr

/-- Embeds `Expr` from `ir/mod.rs`. -/
inductive Expr
  | Value (v : Value)
  | FieldAccess (v : Value) (field : String) (span : Span)
  | PathAccess (k : TypeKey) (member : String) (span : Span)
  | FuncCall (f : FuncKey) (args : List Value) (span : Span)
  | Return (v : Option Value) (span : Span)
  | Break (span : Span)
  | Continue (span : Span)
  | BinOp (lhs : Value) (op : BinOp) (rhs : Value) (span : Span)
  | UnaryOp (op : UnaryOp) (v : Value) (span : Span)

mutual

/-- Embeds `Statement` from `ir/mod.rs`. -/
inductive Statement
  | Assign (v : Var) (e : Expr) (span : Span)
  | DerefAssign (target : Expr) (value : Expr) (span : Span)
  | FieldAssign (object : Expr) (field : String) (value : Expr) (span : Span)
  | Do (e : Expr)
  | Block (b : Block) (span : Span)
  | If (cond : Expr) (block : Block) (else_block : Option Block) (span : Span)
  | Loop (b : Block) (span : Span)

/-- Embeds `Block` from `ir/mod.rs`: an ordered sequence of statements. -/
inductive Block
  | mk (stmts : List Statement)

end

/-- Projection for the single field of `Block`. -/
def Block.stmts : Block → List Statement
  | .mk s => s

/-- Embeds `Value::span` from `ir/mod.rs`. -/
def Value.span : Value → Span
  | .Var _ span => span
  | .Num _ span => span
  | .Literal _ span => span
  | .Uninit span => span
  | .Unit span => span

/-- Embeds `Value::with_span` from `ir/mod.rs`. -/
def Value.with_span : Value → Span → Value
  | .Var v _, span => .Var v span
  | .Num n _, span => .Num n span
  | .Literal l _, span => .Literal l span
  | .Uninit _, span => .Uninit span
  | .Unit _, span => .Unit span

/-- Embeds `Value::expr` from `ir/mod.rs`. -/
def Value.expr (v : Value) : Expr :=
  Expr.Value v

/-- The span-free part of a `Value`: its variant tag together with its
non-span payload (variable key, numeric value, or literal key). -/
inductive ValueData
  | Var (v : Var)
  | Num (n : Int)
  | Literal (l : LiteralKey)
  | Uninit
  | Unit
deriving DecidableEq, Repr

/-- Project a `Value` to its span-free part. -/
def Value.data : Value → ValueData
  | .Var v _ => .Var v
  | .Num n _ => .Num n
  | .Literal l _ => .Literal l
  | .Uninit _ => .Uninit
  | .Unit _ => .Unit

/-- Embeds `Expr::span` from `ir/mod.rs`. -/
def Expr.span : Expr → Span
  | .Value value => value.span
  | .FieldAccess _ _ span => span
  | .PathAccess _ _ span => span
  | .FuncCall _ _ span => span
  | .Return _ span => span
  | .Break span => span
  | .Continue span => span
  | .BinOp _ _ _ span => span
  | .UnaryOp _ _ span => span

/-- Embeds `Statement::span` from `ir/mod.rs`. -/
def Statement.span : Statement → Span
  | .Assign _ _ span => span
  | .DerefAssign _ _ span => span
  | .FieldAssign _ _ _ span => span
  | .Do expr => expr.span
  | .Block _ span => span
  | .If _ _ _ span => span
  | .Loop _ span => span

/-- Embeds `Block::last_expr_span` from `ir/mod.rs`.  The Rust function panics on an
empty block (`.expect("at least one statement")`); the panic is modelled as
`none`. -/
def Block.last_expr_span (b : Block) : Option Span :=
  b.stmts.getLast?.map Statement.span

/-- Embedding of `slotmap::SlotMap` (and, with keys supplied externally,
`SecondaryMap`): a generation-free arena model where `next` is the next fresh
index and `entries` associates live indices to values.  No removal occurs in
this system, so generation stamps are not modelled. -/
structure SlotMap (α : Type) where
  entries : List (Nat × α)
  next : Nat

/-- Insert a value, returning the fresh key (the Rust `SlotMap::insert`). -/
def SlotMap.insert (m : SlotMap α) (a : α) : Nat × SlotMap α :=
  (m.next, ⟨(m.next, a) :: m.entries, m.next + 1⟩)

/-- First-match lookup in an association list (the behaviour of
`List.lookup`, restated for direct reasoning). -/
def assoc_find : List (Nat × α) → Nat → Option α
  | [], _ => none
  | (k', a) :: es, k => if k' = k then some a else assoc_find es k

/-- Indexing into the arena. -/
def SlotMap.get (m : SlotMap α) (k : Nat) : Option α :=
  assoc_find m.entries k

/-- In-place update of an existing entry (the Rust `&mut` index). -/
def SlotMap.set (m : SlotMap α) (k : Nat) (a : α) : SlotMap α :=
  ⟨m.entries.map (fun e => (e.1, if e.1 = k then a else e.2)), m.next⟩

/-- The empty arena (`SlotMap::default`). -/
def SlotMap.empty : SlotMap α :=
  ⟨[], 0⟩

/-- Embeds `Variable` from `ir/mod.rs`. -/
structure Variable where
  ty : Ty

/-- Embeds `Function` from `ir/mod.rs`: a local variable arena plus a body.  The
Rust field is called `variables`; that identifier is reserved in Lean 4, so
the field is named `vars`. -/
structure Function where
  vars : SlotMap Variable
  body : Block

/-- Embeds `Program` from `ir/mod.rs`: the arenas and the two name tables.  The Rust
`HashMap` name tables are embedded as association lists (uniqueness of names
is an invariant, proved below, not a property of the container). -/
structure Program where
  function_names : List (String × FuncKey)
  functions : SlotMap Function
  function_decls : List (FuncKey × FunctionDecl)
  type_decls : List (String × TypeKey)
  types : SlotMap DirectType
  literals : SlotMap String

/-- Embeds `Program::default` (`#[derive(Default)]` in `ir/mod.rs`). -/
def Program.default : Program :=
  ⟨[], SlotMap.empty, [], [], SlotMap.empty, SlotMap.empty⟩

/-- Modelled from the spec: `LoweringError` (§7); its definition lives in the
absent lowering module.  Each variant carries the offending span. -/
inductive LoweringError
  | DuplicateType (span : Span)
  | DuplicateFunction (span : Span)
  | UnknownFunction (span : Span)
  | UnknownType (span : Span)
  | UnknownVariable (span : Span)
deriving DecidableEq, Repr

/-- Modelled from the spec: `TypeError` (§7); its definition lives in the
absent typecheck module. -/
inductive TypeError
  | TypeMismatch (span : Span)
  | UnknownField (span : Span)
  | NotAStruct (span : Span)
  | NotAPointer (span : Span)
  | ArityMismatch (span : Span)
  | MissingReturnValue (span : Span)
  | IllegalBreakOrContinue (span : Span)
  | AddressOfNonLvalue (span : Span)
  | UninferredVariable (span : Span)
deriving DecidableEq, Repr

mutual

/-- Modelled from the spec: structural equality on `Type` (§4.1) — same
variant and recursively equal payloads, `Direct` keys compared by key
identity, not by expanding the referenced definition.  The implementation
lives in the absent typecheck module (`Type` derives no `PartialEq` in
`ir/mod.rs`). -/
def Ty.structEq : Ty → Ty → Bool
  | .Direct k, .Direct k' => k = k'
  | .Primitive p, .Primitive p' => p = p'
  | .Uninit, .Uninit => true
  | .Unit, .Unit => true
  | .Never, .Never => true
  | .Undeclared, .Undeclared => true
  | .Ptr t, .Ptr t' => t.structEq t'
  | .Slice t, .Slice t' => t.structEq t'
  | .Array t n, .Array t' n' => t.structEq t' && n = n'
  | .Func r ps, .Func r' ps' => r.structEq r' && Ty.listStructEq ps ps'
  | _, _ => false

/-- Pointwise structural equality of parameter lists, used by `Ty.structEq`
on `Func` types. -/
def Ty.listStructEq : List Ty → List Ty → Bool
  | [], [] => true
  | t :: ts, t' :: ts' => t.structEq t' && Ty.listStructEq ts ts'
  | _, _ => false

end

/-- Returns `true` iff the type is `Never`. -/
def Ty.isNever : Ty → Bool
  | .Never => true
  | _ => false

/-- Returns `true` iff the type is `Uninit`. -/
def Ty.isUninit : Ty → Bool
  | .Uninit => true
  | _ => false

/-- Returns `true` iff the type is `Undeclared`. -/
def Ty.isUndeclared : Ty → Bool
  | .Undeclared => true
  | _ => false

/-- Modelled from the spec: assignability (§4.1) — `source` is assignable to
`target` iff they are structurally equal, or `source` is `Never` (bottom
type), or `source` is `Uninit` (assigning the uninit marker always succeeds
and leaves the target's static type unchanged).  The implementation lives in
the absent typecheck module. -/
def assignable (source target : Ty) : Bool :=
  source.structEq target || source.isNever || source.isUninit

/-- Modelled from the spec: `declare_type(name, DirectType) -> TypeKey`
(§4.2); the implementation lives in the absent lowering module.  Fails with a
`DuplicateType` error carrying the offending span when the name table already
holds an entry; the store is left unchanged on failure.  The returned
`Program` is the post-state (Rust mutates `&mut self`). -/
def Program.declare_type (p : Program) (name : String) (span : Span)
    (ty : DirectType) : Program × Except LoweringError TypeKey :=
  if p.type_decls.any (fun e => e.1 = name) then
    (p, .error (.DuplicateType span))
  else
    let (k, types') := p.types.insert ty
    ({ p with types := types', type_decls := (name, ⟨k⟩) :: p.type_decls },
     .ok ⟨k⟩)

/-- Modelled from the spec: `declare_function(name, FunctionDecl) -> FuncKey`
(§4.2); the implementation lives in the absent lowering module.  Registers
the signature: a fresh function arena entry (body filled by later body
lowering), the declaration in the secondary map, and the name table entry.
Fails with `DuplicateFunction` and an unchanged store on a duplicate name. -/
def Program.declare_function (p : Program) (name : String) (span : Span)
    (d : FunctionDecl) : Program × Except LoweringError FuncKey :=
  if p.function_names.any (fun e => e.1 = name) then
    (p, .error (.DuplicateFunction span))
  else
    let (k, functions') := p.functions.insert ⟨SlotMap.empty, .mk []⟩
    ({ p with
        functions := functions',
        function_decls := (⟨k⟩, d) :: p.function_decls,
        function_names := (name, ⟨k⟩) :: p.function_names },
     .ok ⟨k⟩)

/-- Modelled from the spec: `intern_literal(text) -> LiteralKey` (§4.2);
literals are not deduplicated by content — each occurrence gets a fresh
key. -/
def Program.intern_literal (p : Program) (text : String) :
    Program × LiteralKey :=
  let (k, literals') := p.literals.insert text
  ({ p with literals := literals' }, ⟨k⟩)

/-- Modelled from the spec: the `Assign(var, expr)` rule of Typecheck (§4.4),
with `expr`'s type already computed; the implementation lives in the absent
typecheck module.  If the variable's stored type is `Undeclared`, set it to
the expression's type (first-write inference) and succeed; else require
assignability, recording a `TypeMismatch` otherwise.  A key absent from the
arena cannot occur in lowered programs and is a no-op here. -/
def check_assign (vars : SlotMap Variable) (v : Var) (ty : Ty) (span : Span) :
    SlotMap Variable × List TypeError :=
  match vars.get v.key with
  | some var =>
    if var.ty.isUndeclared then
      (vars.set v.key ⟨ty⟩, [])
    else if assignable ty var.ty then
      (vars, [])
    else
      (vars, [.TypeMismatch span])
  | none => (vars, [])

/-- A registrable top-level item of the syntax tree, as consumed by the first
lowering pass (§4.3 step 1): a struct/union/enum/type-alias declaration or a
function signature. -/
inductive Item
  | TypeDecl (name : String) (span : Span) (ty : DirectType)
  | FuncDecl (name : String) (span : Span) (d : FunctionDecl)

/-- Modelled from the spec and `main.rs`: the top-level registration loop of
`Program::lower`.  Items are registered in order; per the `Result` consumed
in `main.rs` (`Err(e) => show_errs(input, "stdin", vec![e])`, a single
diagnostic), a registration failure aborts lowering with that one error. -/
def lower_items (p : Program) : List Item → Except LoweringError Program
  | [] => .ok p
  | .TypeDecl name span ty :: rest =>
    match p.declare_type name span ty with
    | (_, .error e) => .error e
    | (p', .ok _) => lower_items p' rest
  | .FuncDecl name span d :: rest =>
    match p.declare_function name span d with
    | (_, .error e) => .error e
    | (p', .ok _) => lower_items p' rest

/-- Embeds `Program::lower` as called from `main.rs`, starting from the default
(empty) program. -/
def Program.lower (items : List Item) : Except LoweringError Program :=
  lower_items Program.default items

/-- Outcome of the `main.rs` pipeline after parsing: lowering failed (its
error is shown and the run stops before typechecking), or the program was
typechecked, yielding the checked program and the collected type errors. -/
inductive PipelineResult
  | loweringFailure (e : LoweringError)
  | checked (p : Program) (errs : List TypeError)

/-- The lowering/typechecking pipeline of `main.rs` (lines 48–60),
parameterised over the typecheck pass `tc` (its implementation file is not
among the provided sources): on `Err(e)` the error is shown and `main`
returns before `p.typecheck()` is reached; on `Ok(p)` typechecking runs. -/
def run_pipeline (tc : Program → Program × List TypeError)
    (items : List Item) : PipelineResult :=
  match Program.lower items with
  | .error e => .loweringFailure e
  | .ok p =>
    let r := tc p
    .checked r.1 r.2

/-- The `i32` value range, for the `len` field of `Type::Array` and the
payload of `Value::Num`. -/
def in_i32_range (n : Int) : Bool :=
  decide (-2147483648 ≤ n) && decide (n < 2147483648)

mutual

/-- Well-formedness of an embedded `Ty` as a Rust `Type` value: every
`Array` length fits in `i32`.  No non-negativity requirement exists anywhere
in the data model. -/
def Ty.wf : Ty → Bool
  | .Ptr t => t.wf
  | .Slice t => t.wf
  | .Array t n => t.wf && in_i32_range n
  | .Func r ps => r.wf && Ty.listWf ps
  | _ => true

/-- Well-formedness of a parameter-type list. -/
def Ty.listWf : List Ty → Bool
  | [] => true
  | t :: ts => t.wf && Ty.listWf ts

end

/-- Well-formedness of an embedded `Value` as a Rust value: a `Num` payload
fits in `i32`. -/
def Value.wf : Value → Bool
  | .Num n _ => in_i32_range n
  | _ => true

/-- A well-formed arena in the model: entry keys are pairwise distinct and
all below the fresh-key counter. -/
def SlotMap.Wf (m : SlotMap α) : Prop :=
  (m.entries.map Prod.fst).Nodup ∧ ∀ k ∈ m.entries.map Prod.fst, k < m.next

/-- The structural invariant of a `Program` (§3): each name table is a map
(no duplicate names — no silent shadowing) and is injective (no two names
share a key); every arena has unique keys; name-table and secondary-map keys
point below their arena's fresh-key counter. -/
def Program.Wf (p : Program) : Prop :=
  p.types.Wf ∧ p.functions.Wf ∧ p.literals.Wf ∧
  (p.type_decls.map Prod.fst).Nodup ∧
  (p.type_decls.map (fun e => e.2.key)).Nodup ∧
  (∀ e ∈ p.type_decls, e.2.key < p.types.next) ∧
  (p.function_names.map Prod.fst).Nodup ∧
  (p.function_names.map (fun e => e.2.key)).Nodup ∧
  (∀ e ∈ p.function_names, e.2.key < p.functions.next) ∧
  (p.function_decls.map (fun e => e.1.key)).Nodup ∧
  (∀ e ∈ p.function_decls, e.1.key < p.functions.next)

/-- The store mutations of the arena-store contract (§4.2), used to describe
an arbitrary build sequence of a `Program`. -/
inductive Op
  | DeclType (name : String) (span : Span) (ty : DirectType)
  | DeclFunc (name : String) (span : Span) (d : FunctionDecl)
  | InternLit (text : String)

/-- Apply one store operation, keeping the post-state (failures leave the
store unchanged). -/
def Program.apply_op (p : Program) : Op → Program
  | .DeclType name span ty => (p.declare_type name span ty).1
  | .DeclFunc name span d => (p.declare_function name span d).1
  | .InternLit text => (p.intern_literal text).1

/-- The program built by a sequence of store operations from the default
program. -/
def Program.build (ops : List Op) : Program :=
  ops.foldl Program.apply_op Program.default

/-! ## Helper lemmas -/

theorem Ty.isNever_iff (t : Ty) : t.isNever = true ↔ t = .Never := by
  cases t <;> simp [Ty.isNever]

theorem Ty.isUninit_iff (t : Ty) : t.isUninit = true ↔ t = .Uninit := by
  cases t <;> simp [Ty.isUninit]

theorem Ty.isUndeclared_eq_false {t : Ty} (h : t ≠ .Undeclared) :
    t.isUndeclared = false := by
  cases t <;> simp_all [Ty.isUndeclared]

mutual

theorem Ty.structEq_refl : ∀ t : Ty, t.structEq t = true
  | .Direct _ => by simp [Ty.structEq]
  | .Primitive _ => by simp [Ty.structEq]
  | .Uninit => by simp [Ty.structEq]
  | .Unit => by simp [Ty.structEq]
  | .Never => by simp [Ty.structEq]
  | .Undeclared => by simp [Ty.structEq]
  | .Ptr t => by simp [Ty.structEq, Ty.structEq_refl t]
  | .Slice t => by simp [Ty.structEq, Ty.structEq_refl t]
  | .Array t _ => by simp [Ty.structEq, Ty.structEq_refl t]
  | .Func r ps => by simp [Ty.structEq, Ty.structEq_refl r, Ty.listStructEq_refl ps]

theorem Ty.listStructEq_refl : ∀ ts : List Ty, Ty.listStructEq ts ts = true
  | [] => by simp [Ty.listStructEq]
  | t :: ts => by simp [Ty.listStructEq, Ty.structEq_refl t, Ty.listStructEq_refl ts]

end

theorem assoc_find_map_set {l : List (Nat × α)} {k : Nat} {b : α} (a : α)
    (h : assoc_find l k = some b) :
    assoc_find (l.map fun e => (e.1, if e.1 = k then a else e.2)) k = some a := by
  induction l with
  | nil => simp [assoc_find] at h
  | cons hd tl ih =>
    obtain ⟨k', v'⟩ := hd
    by_cases hk : k' = k
    · subst hk
      simp [assoc_find]
    · simp only [assoc_find, if_neg hk] at h
      simp only [List.map, assoc_find, if_neg hk]
      exact ih h

theorem SlotMap.get_set {m : SlotMap α} {k : Nat} {b : α} (a : α)
    (h : m.get k = some b) : (m.set k a).get k = some a :=
  assoc_find_map_set a h

theorem nodup_cons_of_bounded {l : List Nat} {n : Nat}
    (hn : l.Nodup) (hb : ∀ k ∈ l, k < n) : (n :: l).Nodup := by
  refine List.nodup_cons.mpr ⟨?_, hn⟩
  intro hmem
  exact absurd (hb n hmem) (lt_irrefl n)

theorem bounded_cons {l : List Nat} {n : Nat}
    (hb : ∀ k ∈ l, k < n) : ∀ k ∈ n :: l, k < n + 1 := by
  intro k hk
  rcases List.mem_cons.mp hk with h | h
  · omega
  · exact Nat.lt_succ_of_lt (hb k h)

theorem slotmap_insert_wf {α : Type} {m : SlotMap α} (hm : m.Wf) (a : α) :
    (m.insert a).2.Wf := by
  obtain ⟨h1, h2⟩ := hm
  constructor
  · simpa [SlotMap.insert] using nodup_cons_of_bounded h1 h2
  · simpa [SlotMap.insert] using bounded_cons h2

theorem program_default_wf : Program.Wf Program.default := by
  simp [Program.Wf, Program.default, SlotMap.Wf, SlotMap.empty]

theorem apply_op_wf {p : Program} (hp : p.Wf) (o : Op) :
    (p.apply_op o).Wf := by
  cases o with
  | DeclType name span ty =>
    by_cases h : p.type_decls.any (fun e => e.1 = name) = true
    · simp only [Program.apply_op, Program.declare_type]
      rw [if_pos h]
      exact hp
    · obtain ⟨hT, hF, hL, htn, htk, htb, hfn, hfk, hfb, hdk, hdb⟩ := hp
      have hname : ¬ name ∈ p.type_decls.map Prod.fst := by
        intro hmem
        obtain ⟨e, he, heq⟩ := List.mem_map.mp hmem
        exact h (List.any_eq_true.mpr ⟨e, he, by simp [heq]⟩)
      have htk' : ∀ k ∈ p.type_decls.map (fun e => e.2.key),
          k < p.types.next := by
        intro k hk
        obtain ⟨e, he, rfl⟩ := List.mem_map.mp hk
        exact htb e he
      simp only [Program.apply_op, Program.declare_type]
      rw [if_neg h]
      refine ⟨slotmap_insert_wf hT ty, hF, hL,
        List.nodup_cons.mpr ⟨hname, htn⟩,
        nodup_cons_of_bounded htk htk', ?_, hfn, hfk, hfb, hdk, hdb⟩
      intro e he
      rcases List.mem_cons.mp he with rfl | he'
      · exact Nat.lt_succ_self _
      · exact Nat.lt_succ_of_lt (htb e he')
  | DeclFunc name span d =>
    by_cases h : p.function_names.any (fun e => e.1 = name) = true
    · simp only [Program.apply_op, Program.declare_function]
      rw [if_pos h]
      exact hp
    · obtain ⟨hT, hF, hL, htn, htk, htb, hfn, hfk, hfb, hdk, hdb⟩ := hp
      have hname : ¬ name ∈ p.function_names.map Prod.fst := by
        intro hmem
        obtain ⟨e, he, heq⟩ := List.mem_map.mp hmem
        exact h (List.any_eq_true.mpr ⟨e, he, by simp [heq]⟩)
      have hfk' : ∀ k ∈ p.function_names.map (fun e => e.2.key),
          k < p.functions.next := by
        intro k hk
        obtain ⟨e, he, rfl⟩ := List.mem_map.mp hk
        exact hfb e he
      have hdk' : ∀ k ∈ p.function_decls.map (fun e => e.1.key),
          k < p.functions.next := by
        intro k hk
        obtain ⟨e, he, rfl⟩ := List.mem_map.mp hk
        exact hdb e he
      simp only [Program.apply_op, Program.declare_function]
      rw [if_neg h]
      refine ⟨hT, slotmap_insert_wf hF _, hL, htn, htk, htb,
        List.nodup_cons.mpr ⟨hname, hfn⟩,
        nodup_cons_of_bounded hfk hfk', ?_,
        nodup_cons_of_bounded hdk hdk', ?_⟩
      · intro e he
        rcases List.mem_cons.mp he with rfl | he'
        · exact Nat.lt_succ_self _
        · exact Nat.lt_succ_of_lt (hfb e he')
      · intro e he
        rcases List.mem_cons.mp he with rfl | he'
        · exact Nat.lt_succ_self _
        · exact Nat.lt_succ_of_lt (hdb e he')
  | InternLit text =>
    obtain ⟨hT, hF, hL, htn, htk, htb, hfn, hfk, hfb, hdk, hdb⟩ := hp
    exact ⟨hT, hF, slotmap_insert_wf hL text, htn, htk, htb,
      hfn, hfk, hfb, hdk, hdb⟩

/-! ## Claim theorems -/

/-- C6: every program built from the default store by any sequence of
declarations satisfies the structural invariant: the two name tables map
pairwise-distinct names to pairwise-distinct keys (injective, no silent
shadowing), each arena's keys are unique within it, and every name-table or
secondary-map key points into its own arena's key space (below its fresh-key
counter) — the key spaces of the four arenas are independent, being distinct
types (`FuncKey`, `TypeKey`, `LiteralKey`, `Var`) in the embedding. -/
theorem C6_program_invariants (ops : List Op) : (Program.build ops).Wf := by
  have step : ∀ (os : List Op) (p : Program),
      p.Wf → (os.foldl Program.apply_op p).Wf := by
    intro os
    induction os with
    | nil => intro p hp; exact hp
    | cons o os ih =>
      intro p hp
      exact ih _ (apply_op_wf hp o)
  exact step ops Program.default program_default_wf

/-- C1: assignability holds exactly when source and target are structurally
equal, or the source type is `Never`, or the assigned value is the uninit
marker (whose type is `Uninit`); in particular `Never` is assignable into any
target type, and assigning the uninit marker into a declared variable
succeeds and leaves the variable's static type unchanged. -/
theorem C1_assignability (s t : Ty) (vars : SlotMap Variable) (v : Var)
    (var : Variable) (sp : Span)
    (h1 : vars.get v.key = some var) (h2 : var.ty.isUndeclared = false) :
    (assignable s t = true ↔
      (s.structEq t = true ∨ s = .Never ∨ s = .Uninit)) ∧
    assignable .Never t = true ∧
    check_assign vars v .Uninit sp = (vars, []) := by
  refine ⟨?_, ?_, ?_⟩
  · simp [assignable, Bool.or_eq_true, Ty.isNever_iff, Ty.isUninit_iff,
      or_assoc]
  · simp [assignable, Ty.isNever]
  · simp [check_assign, h1, h2, assignable, Ty.isUninit]

/-- Witness for C1, at source `I32`, target `Unit`, and a variable of
declared type `I32` receiving the uninit marker. -/
theorem C1_assignability_witness :
    (assignable (.Primitive .I32) .Unit = true ↔
      (Ty.structEq (.Primitive .I32) .Unit = true ∨
        Ty.Primitive .I32 = .Never ∨ Ty.Primitive .I32 = .Uninit)) ∧
    assignable .Never .Unit = true ∧
    check_assign ⟨[(0, ⟨.Primitive .I32⟩)], 1⟩ ⟨0⟩ .Uninit ⟨0, 0⟩
      = (⟨[(0, ⟨.Primitive .I32⟩)], 1⟩, []) :=
  C1_assignability (.Primitive .I32) .Unit ⟨[(0, ⟨.Primitive .I32⟩)], 1⟩
    ⟨0⟩ ⟨.Primitive .I32⟩ ⟨0, 0⟩ rfl rfl

/-- C3 (counterexample): the claim omits the uninit marker.  A variable of
inferred type `I32` receiving a later assignment of type `Uninit` — not
structurally equal to `I32` and not `Never` — yields no `TypeMismatch`,
because assigning the uninit marker always succeeds. -/
theorem C3_counterexample :
    Ty.structEq .Uninit (.Primitive .I32) = false ∧
    Ty.Uninit ≠ Ty.Never ∧
    check_assign ⟨[(0, ⟨.Primitive .I32⟩)], 1⟩ ⟨0⟩ .Uninit ⟨0, 1⟩
      = (⟨[(0, ⟨.Primitive .I32⟩)], 1⟩, []) :=
  ⟨rfl, by simp, rfl⟩

/-- C3 (amended): the first `Assign` checked for a variable whose stored type
is `Undeclared` sets the variable's static type to the expression's type and
succeeds; thereafter the variable has that type, and a later assignment of an
incompatible type `U` — not structurally equal, not `Never`, and not the
uninit marker's type `Uninit` — produces exactly one `TypeMismatch`. -/
theorem C3_first_write_inference (vars : SlotMap Variable) (v : Var)
    (T U : Ty) (s1 s2 : Span)
    (h0 : vars.get v.key = some ⟨.Undeclared⟩)
    (hT : T.isUndeclared = false)
    (hne : U.structEq T = false) (hU1 : U ≠ .Never) (hU2 : U ≠ .Uninit) :
    check_assign vars v T s1 = (vars.set v.key ⟨T⟩, []) ∧
    (vars.set v.key ⟨T⟩).get v.key = some ⟨T⟩ ∧
    check_assign (vars.set v.key ⟨T⟩) v U s2
      = (vars.set v.key ⟨T⟩, [.TypeMismatch s2]) := by
  have hget : (vars.set v.key ⟨T⟩).get v.key = some ⟨T⟩ :=
    SlotMap.get_set _ h0
  have hU1' : U.isNever = false := by
    cases U <;> simp_all [Ty.isNever]
  have hU2' : U.isUninit = false := by
    cases U <;> simp_all [Ty.isUninit]
  refine ⟨?_, hget, ?_⟩
  · simp [check_assign, h0, Ty.isUndeclared]
  · simp [check_assign, hget, hT, assignable, hne, hU1', hU2']

/-- Witness for C3 (amended): a variable starting `Undeclared` is inferred to
`I32` by its first assignment; a later assignment of type `Bool` yields one
`TypeMismatch`. -/
theorem C3_first_write_inference_witness :
    check_assign ⟨[(0, ⟨.Undeclared⟩)], 1⟩ ⟨0⟩ (.Primitive .I32) ⟨0, 1⟩
      = (SlotMap.set ⟨[(0, ⟨.Undeclared⟩)], 1⟩ 0 ⟨.Primitive .I32⟩, []) ∧
    (SlotMap.set ⟨[(0, ⟨.Undeclared⟩)], 1⟩ 0
        (⟨.Primitive .I32⟩ : Variable)).get 0 = some ⟨.Primitive .I32⟩ ∧
    check_assign (SlotMap.set ⟨[(0, ⟨.Undeclared⟩)], 1⟩ 0 ⟨.Primitive .I32⟩)
        ⟨0⟩ (.Primitive .Bool) ⟨2, 3⟩
      = (SlotMap.set ⟨[(0, ⟨.Undeclared⟩)], 1⟩ 0 ⟨.Primitive .I32⟩,
         [.TypeMismatch ⟨2, 3⟩]) :=
  C3_first_write_inference ⟨[(0, ⟨.Undeclared⟩)], 1⟩ ⟨0⟩
    (.Primitive .I32) (.Primitive .Bool) ⟨0, 1⟩ ⟨2, 3⟩ rfl rfl rfl
    (by simp) (by simp)

/-- C5: on a block with at least one statement, `Block::last_expr_span`
returns the span of the last statement; on the empty block the `.expect`
panics, modelled as `none` — a contract violation, never a reported
diagnostic. -/
theorem C5_last_expr_span (b : Block) (h : b.stmts ≠ []) :
    b.last_expr_span = some (Statement.span (b.stmts.getLast h)) ∧
    Block.last_expr_span (.mk []) = none := by
  constructor
  · simp [Block.last_expr_span, List.getLast?_eq_getLast_of_ne_nil h]
  · rfl

/-- Witness for C5, on a one-statement block. -/
theorem C5_last_expr_span_witness :
    (Block.mk [.Do (.Break ⟨1, 2⟩)]).last_expr_span = some ⟨1, 2⟩ ∧
    Block.last_expr_span (.mk []) = none := by
  obtain ⟨h1, h2⟩ :=
    C5_last_expr_span (.mk [.Do (.Break ⟨1, 2⟩)]) (by simp [Block.stmts])
  exact ⟨h1.trans rfl, h2⟩

/-- C7: an `Enum` with any ordered list of (variant, discriminant) pairs —
duplicates and non-contiguous discriminants included — is declared without
error and stored exactly as given: no uniqueness or contiguity check is
performed. -/
theorem C7_enum_unchecked (p : Program) (name : String) (span : Span)
    (vs : List (String × Int))
    (h : p.type_decls.any (fun e => e.1 = name) = false) :
    (p.declare_type name span (.Enum vs)).2 = .ok ⟨p.types.next⟩ ∧
    (p.declare_type name span (.Enum vs)).1.types.get p.types.next
      = some (.Enum vs) := by
  constructor <;>
    simp [Program.declare_type, h, SlotMap.insert, SlotMap.get, assoc_find]

/-- Witness for C7: duplicate and non-contiguous (negative) discriminants are
accepted and stored verbatim. -/
theorem C7_enum_unchecked_witness :
    (Program.default.declare_type "Color" ⟨0, 5⟩
        (.Enum [("Red", 3), ("Green", 3), ("Blue", -7)])).2 = .ok ⟨0⟩ ∧
    (Program.default.declare_type "Color" ⟨0, 5⟩
        (.Enum [("Red", 3), ("Green", 3), ("Blue", -7)])).1.types.get 0
      = some (.Enum [("Red", 3), ("Green", 3), ("Blue", -7)]) :=
  C7_enum_unchecked Program.default "Color" ⟨0, 5⟩
    [("Red", 3), ("Green", 3), ("Blue", -7)] rfl

/-- C8: `with_span` sets the span — `(v.with_span s).span = s` — and changes
nothing else: the variant and its non-span payload are preserved. -/
theorem C8_with_span (v : Value) (s : Span) :
    (v.with_span s).span = s ∧ (v.with_span s).data = v.data := by
  cases v <;> simp [Value.with_span, Value.span, Value.data]

/-- C9: `Value::expr` wraps the value as `Expr::Value` and preserves the
span; `Expr::span` and `Statement::span` are total functions (they are
defined on every constructor), with `Statement::Do` taking its span from the
inner expression. -/
theorem C9_expr_span (v : Value) (e : Expr) :
    v.expr = Expr.Value v ∧ (v.expr).span = v.span ∧
    (Statement.Do e).span = e.span :=
  ⟨rfl, rfl, rfl⟩

/-- C10: any `i32` — negative and zero included — is representable as an
`Array` length and as a `Num` payload, and no operation rejects a
non-positive length: such an array type is well-formed and assignable to
itself. -/
theorem C10_i32_array_and_num (ty : Ty) (n : Int) (s : Span)
    (hn : in_i32_range n = true) (hty : ty.wf = true) :
    (Ty.Array ty n).wf = true ∧ (Value.Num n s).wf = true ∧
    assignable (.Array ty n) (.Array ty n) = true := by
  refine ⟨?_, ?_, ?_⟩
  · simp [Ty.wf, hty, hn]
  · simp [Value.wf, hn]
  · simp [assignable, Ty.structEq_refl]

/-- C2: declaring a type or function under a name the corresponding table
already holds fails with exactly one `DuplicateType`/`DuplicateFunction`
error carrying the offending span, and the store is returned unchanged — the
first declaration's entry is retained and no partial insert occurs. -/
theorem C2_duplicate_declaration (p : Program) (tn fn : String)
    (s1 s2 : Span) (ty : DirectType) (d : FunctionDecl)
    (ht : p.type_decls.any (fun e => e.1 = tn) = true)
    (hf : p.function_names.any (fun e => e.1 = fn) = true) :
    p.declare_type tn s1 ty = (p, .error (.DuplicateType s1)) ∧
    p.declare_function fn s2 d = (p, .error (.DuplicateFunction s2)) := by
  constructor
  · simp [Program.declare_type, ht]
  · simp [Program.declare_function, hf]

/-- Witness for C2: a program holding type `A` and function `f` rejects a
second `A` and a second `f`, unchanged. -/
theorem C2_duplicate_declaration_witness :
    ((Program.default.declare_type "A" ⟨0, 1⟩ (.Alias .Unit)).1.declare_function
        "f" ⟨2, 3⟩ ⟨.Unit, []⟩).1.declare_type "A" ⟨4, 5⟩ (.Enum [])
      = (((Program.default.declare_type "A" ⟨0, 1⟩
            (.Alias .Unit)).1.declare_function "f" ⟨2, 3⟩ ⟨.Unit, []⟩).1,
         .error (.DuplicateType ⟨4, 5⟩)) ∧
    ((Program.default.declare_type "A" ⟨0, 1⟩ (.Alias .Unit)).1.declare_function
        "f" ⟨2, 3⟩ ⟨.Unit, []⟩).1.declare_function "f" ⟨6, 7⟩ ⟨.Unit, []⟩
      = (((Program.default.declare_type "A" ⟨0, 1⟩
            (.Alias .Unit)).1.declare_function "f" ⟨2, 3⟩ ⟨.Unit, []⟩).1,
         .error (.DuplicateFunction ⟨6, 7⟩)) :=
  C2_duplicate_declaration
    ((Program.default.declare_type "A" ⟨0, 1⟩ (.Alias .Unit)).1.declare_function
      "f" ⟨2, 3⟩ ⟨.Unit, []⟩).1
    "A" "f" ⟨4, 5⟩ ⟨6, 7⟩ (.Enum []) ⟨.Unit, []⟩ rfl rfl

/-- C4 (counterexample): lowering does not collect every error.  With four
top-level items of which the second and the fourth each fail on their own,
the run reports only the first error encountered and omits the other, as the
single-error `Result` consumed by `main.rs` dictates. -/
theorem C4_counterexample :
    Program.lower [.TypeDecl "A" ⟨0, 1⟩ (.Alias .Unit),
        .TypeDecl "A" ⟨2, 3⟩ (.Alias .Unit),
        .FuncDecl "f" ⟨4, 5⟩ ⟨.Unit, []⟩,
        .FuncDecl "f" ⟨6, 7⟩ ⟨.Unit, []⟩]
      = .error (.DuplicateType ⟨2, 3⟩) ∧
    Program.lower [.TypeDecl "A" ⟨0, 1⟩ (.Alias .Unit),
        .FuncDecl "f" ⟨4, 5⟩ ⟨.Unit, []⟩,
        .FuncDecl "f" ⟨6, 7⟩ ⟨.Unit, []⟩]
      = .error (.DuplicateFunction ⟨6, 7⟩) :=
  ⟨rfl, rfl⟩

/-- C4 (amended): lowering registers top-level items in order and aborts at
the first `LoweringError`, failing with exactly that one error; whenever
lowering fails, the `main.rs` pipeline stops there and Typecheck is not run,
whatever the typecheck pass would do. -/
theorem C4_lowering_abort (tc : Program → Program × List TypeError)
    (items : List Item) (e : LoweringError)
    (h : Program.lower items = .error e) :
    run_pipeline tc items = .loweringFailure e := by
  simp [run_pipeline, h]

/-- Witness for C4 (amended): a duplicate type declaration stops the
pipeline before typechecking. -/
theorem C4_lowering_abort_witness :
    run_pipeline (fun p => (p, []))
      [.TypeDecl "A" ⟨0, 1⟩ (.Alias .Unit), .TypeDecl "A" ⟨2, 3⟩ (.Alias .Unit)]
      = .loweringFailure (.DuplicateType ⟨2, 3⟩) :=
  C4_lowering_abort (fun p => (p, []))
    [.TypeDecl "A" ⟨0, 1⟩ (.Alias .Unit), .TypeDecl "A" ⟨2, 3⟩ (.Alias .Unit)]
    (.DuplicateType ⟨2, 3⟩) rfl

/-- Witness for C10, at the negative length `-7`. -/
theorem C10_i32_array_and_num_witness :
    (Ty.Array (.Primitive .I32) (-7)).wf = true ∧
    (Value.Num (-7) ⟨0, 1⟩).wf = true ∧
    assignable (.Array (.Primitive .I32) (-7))
        (.Array (.Primitive .I32) (-7)) = true :=
  C10_i32_array_and_num (.Primitive .I32) (-7) ⟨0, 1⟩ (by decide) rfl

end Cflat
